import Mathlib

/-!
Verification of the ingestion-validation-aggregation-forwarding pipeline of an
IIoT telemetry system (two OPC UA edge-device variants written in Python).

The embedding below translates the Python sources:
  * `edge-device.py` — `process_telemetry` buffers parsed snapshots in a single
    module-global list `telemetry_buffer`, and once `BUFFER_SIZE` (10) entries
    are present averages them element-wise and hands the averaged payload to
    `send_to_cloud` (an HTTP POST, modelled by an oracle result), then clears
    the buffer.  The OPC UA `TriggerHandler` writes the returned record id back
    (`record_id if record_id else 0`).
  * `edge-device-db-opcua.py` — `store_telemetry` parses and validates the same
    payload shape, reshapes it into a 100×100 grid and computes min/max/mean/std
    with numpy before inserting a row.

Python's `float(...)` builtin accepts the tokens "nan", "inf"/"infinity" (any
case, optional sign) in addition to finite numeric literals, so parsed cell
values are modelled by `PyFloat` (a finite rational, NaN, +inf or −inf) and the
comma-split input tokens by `Tok`, which classifies a token by how `float`
treats its stripped text.  Exact rational arithmetic stands in for IEEE-754
doubles; NaN/infinity propagation in sums follows IEEE-754 addition.
-/

set_option autoImplicit false

namespace IIoT

/-- Value classes produced by Python's `float(...)`: a finite double (modelled
exactly as a rational), NaN, or a signed infinity. -/
inductive PyFloat where
  | finite (q : ℚ)
  | nan
  | inf
  | ninf
deriving DecidableEq

/-- One comma-separated token of the `temperatures` string, classified by what
`float(token.strip())` does with it: `num q` is a token parsing to the finite
value `q`; `nanTok` is a NaN spelling ("nan", "NaN", …); `infTok`/`ninfTok`
are infinity spellings; `bad` is a token on which `float` raises `ValueError`. -/
inductive Tok where
  | num (q : ℚ)
  | nanTok
  | infTok
  | ninfTok
  | bad
deriving DecidableEq

/-- `float(token.strip())`: the parsed value, or `none` when `float` raises. -/
def parseTok : Tok → Option PyFloat
  | .num q => some (.finite q)
  | .nanTok => some .nan
  | .infTok => some .inf
  | .ninfTok => some .ninf
  | .bad => none

/-- `[float(temp.strip()) for temp in temperatures.split(',')]`: parses every
token; a single failing token raises, which the callers catch — modelled as
`none`. -/
def parseTemps : List Tok → Option (List PyFloat)
  | [] => some []
  | t :: ts =>
    match parseTok t, parseTemps ts with
    | some v, some vs => some (v :: vs)
    | _, _ => none

/-- IEEE-754 addition restricted to the value classes of `PyFloat`: NaN
propagates, opposite infinities give NaN, an infinity absorbs finite values. -/
def PyFloat.add : PyFloat → PyFloat → PyFloat
  | .nan, _ => .nan
  | _, .nan => .nan
  | .inf, .ninf => .nan
  | .ninf, .inf => .nan
  | .inf, _ => .inf
  | _, .inf => .inf
  | .ninf, _ => .ninf
  | _, .ninf => .ninf
  | .finite a, .finite b => .finite (a + b)

/-- Sum of a list of `PyFloat`s (the reduction inside `np.mean`). -/
def PyFloat.sum (xs : List PyFloat) : PyFloat :=
  xs.foldl PyFloat.add (.finite 0)

/-- Division of a `PyFloat` by an element count (the final step of `np.mean`). -/
def PyFloat.divN : PyFloat → Nat → PyFloat
  | .finite a, n => .finite (a / n)
  | .nan, _ => .nan
  | .inf, _ => .inf
  | .ninf, _ => .ninf

/-- The rational carried by a finite `PyFloat` (0 for the non-finite classes). -/
def PyFloat.toQ : PyFloat → ℚ
  | .finite q => q
  | _ => 0

/-- Every value in the list is a finite float. -/
def AllFinite (xs : List PyFloat) : Prop :=
  ∀ x ∈ xs, ∃ q : ℚ, x = .finite q

/-- `np.mean` over a list of rationals: sum divided by length. -/
def qMean (xs : List ℚ) : ℚ := xs.sum / xs.length

/-- Column `i` of a list of rows (each row a flat temperature array):
the values averaged together by `np.mean(..., axis=0)` at index `i`. -/
def colAt (xss : List (List PyFloat)) (i : Nat) : List PyFloat :=
  xss.map (fun xs => xs.getD i (.finite 0))

/-- `np.mean([...], axis=0)` over equal-length rows: the element-wise mean.
Row lengths are all 10000 at every call site (they passed the size check). -/
def elemwiseMean (xss : List (List PyFloat)) : List PyFloat :=
  (List.range (xss.headD []).length).map
    (fun i => (PyFloat.sum (colAt xss i)).divN xss.length)

/-- One buffered telemetry point of `telemetry_buffer` (the dict appended at
lines 69–75 of `edge-device.py`). -/
structure Entry where
  machine_id : String
  timestep : String
  temperatures : List PyFloat
  power_consumption : ℚ
  vibration : ℚ
deriving DecidableEq

/-- The payload handed to `send_to_cloud` on a flush. -/
structure Payload where
  machine_id : String
  timestep : String
  temperatures : List PyFloat
  power_consumption : ℚ
  vibration : ℚ
deriving DecidableEq

/-- The validation failure reported (printed) by `process_telemetry` /
`store_telemetry`: a parse failure, or a size mismatch carrying the actual
element count. -/
inductive VErr where
  | parseError
  | sizeMismatch (got : Nat)
deriving DecidableEq

/-- Result of one `process_telemetry` call: the new value of the global
`telemetry_buffer`, the Python return value (`record_id` or `None`), the
payloads handed to `send_to_cloud` during the call (in order), and the
validation error reported, if any. -/
structure ProcResult where
  buffer : List Entry
  ret : Option Nat
  sends : List Payload
  err : Option VErr
deriving DecidableEq

/-- `BUFFER_SIZE = 10` of `edge-device.py`. -/
def BUFFER_SIZE : Nat := 10

/-- `process_telemetry(machine_id, timestep, temperatures, power_consumption,
vibration)` of `edge-device.py`, lines 50–109, acting on a given prior value
`buf` of the global `telemetry_buffer`.  `sendResult` is the oracle outcome of
the `send_to_cloud` HTTP call: `some r` when the cloud responds with record id
`r`, `none` when the request fails (non-2xx, network error, or the 10-second
timeout elapsing) — in every failure case `send_to_cloud` catches the exception
and returns `None`. -/
def processTelemetry (sendResult : Option Nat) (buf : List Entry)
    (machine_id timestep : String) (temperatures : List Tok)
    (power_consumption vibration : ℚ) : ProcResult :=
  match parseTemps temperatures with
  | none => ⟨buf, none, [], some .parseError⟩
  | some temps =>
    if temps.length = 10000 then
      let buf' := buf ++ [⟨machine_id, timestep, temps, power_consumption, vibration⟩]
      if BUFFER_SIZE ≤ buf'.length then
        let avgT := elemwiseMean (buf'.map (·.temperatures))
        let avgP := qMean (buf'.map (·.power_consumption))
        let avgV := qMean (buf'.map (·.vibration))
        let lastE := buf'.getLastD ⟨"", "", [], 0, 0⟩
        ⟨[], sendResult, [⟨lastE.machine_id, lastE.timestep, avgT, avgP, avgV⟩], none⟩
      else ⟨buf', none, [], none⟩
    else ⟨buf, none, [], some (.sizeMismatch temps.length)⟩

/-- The write-back performed by the TriggerHandler data-change callback:
`record_id if record_id else 0` — the value written to the `LastRecordID`
OPC UA variable. -/
def writeBack : Option Nat → Nat
  | some r => if r = 0 then 0 else r
  | none => 0

/-- `np.array(temp_list).reshape(rows, cols)` for a flat list of length
`rows * cols`: row `r` holds elements `r*cols` through `r*cols + cols - 1`
of the flat input (numpy's row-major order). -/
def reshapeGrid {α : Type} (rows cols : Nat) (xs : List α) : List (List α) :=
  (List.range rows).map (fun r => (xs.drop (r * cols)).take cols)

/-- The parse/validate/reshape front portion of `store_telemetry` in
`edge-device-db-opcua.py`, lines 62–72: parse the comma-separated tokens,
reject any count other than 10000 (reporting the actual count), and reshape
to a 100×100 grid. -/
def storeValidate (temperatures : List Tok) : Except VErr (List (List PyFloat)) :=
  match parseTemps temperatures with
  | none => .error .parseError
  | some temps =>
    if temps.length = 10000 then .ok (reshapeGrid 100 100 temps)
    else .error (.sizeMismatch temps.length)

/-- `float(np.min(arr))` on a nonempty array: fold of the binary minimum over
the elements (0 on an empty array, which cannot occur after validation). -/
def npMin : List ℚ → ℚ
  | [] => 0
  | x :: xs => xs.foldl min x

/-- `float(np.max(arr))`: fold of the binary maximum over the elements. -/
def npMax : List ℚ → ℚ
  | [] => 0
  | x :: xs => xs.foldl max x

/-- `float(np.mean(arr))`: the sum of all elements divided by their count. -/
def npMean (xs : List ℚ) : ℚ := xs.sum / xs.length

/-- The square of `float(np.std(arr))`: numpy computes the mean, then the mean
of the squared deviations (dividing by N, numpy's default `ddof=0`), then a
square root; `npVar` is the value before the square root, so
`np.std(arr) = sqrt (npVar arr)`. -/
def npVar (xs : List ℚ) : ℚ :=
  npMean (xs.map (fun x => (x - npMean xs) ^ 2))

/-- The statistics record built by `store_telemetry`, lines 74–80, with the
standard deviation represented by its square (`variance`):
`std = sqrt variance`. -/
structure Stats where
  min : ℚ
  max : ℚ
  mean : ℚ
  variance : ℚ
deriving DecidableEq

/-- The `stats` dict of `store_telemetry`: numpy reduces the 100×100 array over
all of its cells, i.e. over the flattened grid. -/
def summarize (grid : List (List ℚ)) : Stats :=
  ⟨npMin grid.flatten, npMax grid.flatten, npMean grid.flatten, npVar grid.flatten⟩

/-! ### Helper lemmas about the parser -/

theorem parseTemps_cons_num (q : ℚ) (ts : List Tok) :
    parseTemps (Tok.num q :: ts) =
      (parseTemps ts).map (fun vs => PyFloat.finite q :: vs) := by
  cases h : parseTemps ts <;> simp [parseTemps, parseTok, h]

theorem parseTemps_replicate (t : Tok) (v : PyFloat) (h : parseTok t = some v) :
    ∀ n : Nat, parseTemps (List.replicate n t) = some (List.replicate n v) := by
  intro n
  induction n with
  | zero => simp [parseTemps]
  | succ k ih => simp [List.replicate_succ, parseTemps, h, ih]

theorem parseTemps_length (ts : List Tok) (vs : List PyFloat)
    (h : parseTemps ts = some vs) : vs.length = ts.length := by
  induction ts generalizing vs with
  | nil => simp [parseTemps] at h; simp [← h]
  | cons t ts ih =>
    simp only [parseTemps] at h
    cases hpt : parseTok t with
    | none => simp [hpt] at h
    | some v =>
      cases hps : parseTemps ts with
      | none => simp [hpt, hps] at h
      | some vs' =>
        simp [hpt, hps] at h
        simp [← h, ih vs' hps]

theorem parseTemps_eq_none_iff (ts : List Tok) :
    parseTemps ts = none ↔ Tok.bad ∈ ts := by
  induction ts with
  | nil => simp [parseTemps]
  | cons t ts ih =>
    cases t <;>
      cases hps : parseTemps ts <;>
        simp_all [parseTemps, parseTok]

theorem parseTemps_all_num (ts : List Tok) (h : ∀ t ∈ ts, ∃ q : ℚ, t = .num q) :
    ∃ vs, parseTemps ts = some vs ∧ AllFinite vs ∧ vs.length = ts.length := by
  induction ts with
  | nil => exact ⟨[], by simp [parseTemps], by simp [AllFinite], rfl⟩
  | cons t ts ih =>
    obtain ⟨q, rfl⟩ := h t (by simp)
    obtain ⟨vs, hvs, hfin, hlen⟩ := ih (fun t ht => h t (by simp [ht]))
    refine ⟨.finite q :: vs, ?_, ?_, by simp [hlen]⟩
    · simp [parseTemps, parseTok, hvs]
    · intro x hx
      rcases List.mem_cons.mp hx with rfl | hx
      · exact ⟨q, rfl⟩
      · exact hfin x hx

theorem parseTemps_finite (ts : List Tok) (vs : List PyFloat)
    (hv : parseTemps ts = some vs) (h : ∀ t ∈ ts, ∃ q : ℚ, t = .num q) :
    AllFinite vs := by
  obtain ⟨vs', hvs', hfin, _⟩ := parseTemps_all_num ts h
  rw [hv] at hvs'
  cases hvs'
  exact hfin

/-! ### Helper lemmas about lists and `PyFloat` arithmetic -/

theorem getLastD_concat {α : Type} (l : List α) (a d : α) :
    (l ++ [a]).getLastD d = a := by
  rw [List.getLastD_eq_getLast?, List.getLast?_concat]
  rfl

theorem pf_foldl_add_finite (l : List ℚ) :
    ∀ a : ℚ, (l.map PyFloat.finite).foldl PyFloat.add (.finite a) =
      .finite (a + l.sum) := by
  induction l with
  | nil => intro a; simp
  | cons x l ih =>
    intro a
    simp only [List.map_cons, List.foldl_cons, List.sum_cons]
    rw [show PyFloat.add (.finite a) (.finite x) = .finite (a + x) from rfl, ih]
    ring_nf

theorem pf_sum_map_finite (l : List ℚ) :
    PyFloat.sum (l.map PyFloat.finite) = .finite l.sum := by
  rw [PyFloat.sum, pf_foldl_add_finite]
  simp

theorem elemwiseMean_length (xss : List (List PyFloat)) :
    (elemwiseMean xss).length = (xss.headD []).length := by
  simp [elemwiseMean]

theorem getD_range_map {α : Type} (n : Nat) (f : Nat → α) (i : Nat) (d : α)
    (hi : i < n) : (((List.range n).map f).getD i d) = f i := by
  rw [List.getD_eq_getElem?_getD, List.getElem?_map, List.getElem?_range hi]
  rfl

theorem elemwiseMean_getD (xss : List (List PyFloat)) (i : Nat) (d : PyFloat)
    (hi : i < (xss.headD []).length) :
    (elemwiseMean xss).getD i d = (PyFloat.sum (colAt xss i)).divN xss.length := by
  rw [elemwiseMean, getD_range_map _ _ _ _ hi]

theorem colAt_finite (xss : List (List PyFloat)) (i : Nat)
    (h : ∀ xs ∈ xss, AllFinite xs) :
    colAt xss i = (xss.map (fun xs => (xs.getD i (.finite 0)).toQ)).map PyFloat.finite := by
  rw [colAt, List.map_map]
  refine List.map_congr_left (fun xs hxs => ?_)
  obtain ⟨q, hq⟩ : ∃ q : ℚ, xs.getD i (.finite 0) = .finite q := by
    by_cases hi : i < xs.length
    · refine h xs hxs _ ?_
      rw [List.getD_eq_getElem?_getD, List.getElem?_eq_getElem hi]
      simp only [Option.getD_some]
      exact List.getElem_mem hi
    · exact ⟨0, by rw [List.getD_eq_getElem?_getD, List.getElem?_eq_none (by omega)]; rfl⟩
  simp only [Function.comp_apply, hq, PyFloat.toQ]

theorem elemwiseMean_getD_finite (xss : List (List PyFloat)) (i : Nat) (d : PyFloat)
    (hi : i < (xss.headD []).length) (h : ∀ xs ∈ xss, AllFinite xs) :
    (elemwiseMean xss).getD i d =
      .finite ((xss.map (fun xs => (xs.getD i (.finite 0)).toQ)).sum / xss.length) := by
  rw [elemwiseMean_getD xss i d hi, colAt_finite xss i h, pf_sum_map_finite]
  rfl

/-! ### Case equations for `process_telemetry` -/

theorem processTelemetry_parse_fail (sr : Option Nat) (buf : List Entry)
    (mid ts : String) (toks : List Tok) (p v : ℚ)
    (hp : parseTemps toks = none) :
    processTelemetry sr buf mid ts toks p v = ⟨buf, none, [], some .parseError⟩ := by
  simp [processTelemetry, hp]

theorem processTelemetry_size_fail (sr : Option Nat) (buf : List Entry)
    (mid ts : String) (toks : List Tok) (p v : ℚ) (temps : List PyFloat)
    (hp : parseTemps toks = some temps) (hlen : temps.length ≠ 10000) :
    processTelemetry sr buf mid ts toks p v =
      ⟨buf, none, [], some (.sizeMismatch temps.length)⟩ := by
  simp [processTelemetry, hp, hlen]

theorem processTelemetry_buffering (sr : Option Nat) (buf : List Entry)
    (mid ts : String) (toks : List Tok) (p v : ℚ) (temps : List PyFloat)
    (hp : parseTemps toks = some temps) (hlen : temps.length = 10000)
    (hlt : buf.length + 1 < 10) :
    processTelemetry sr buf mid ts toks p v =
      ⟨buf ++ [(⟨mid, ts, temps, p, v⟩ : Entry)], none, [], none⟩ := by
  simp only [processTelemetry, hp]
  rw [if_pos hlen,
    if_neg (show ¬ BUFFER_SIZE ≤ (buf ++ [(⟨mid, ts, temps, p, v⟩ : Entry)]).length by
      simp only [List.length_append, List.length_cons, List.length_nil, BUFFER_SIZE]
      omega)]

theorem processTelemetry_flush (sr : Option Nat) (buf : List Entry)
    (mid ts : String) (toks : List Tok) (p v : ℚ) (temps : List PyFloat)
    (hp : parseTemps toks = some temps) (hlen : temps.length = 10000)
    (hge : 10 ≤ buf.length + 1) :
    processTelemetry sr buf mid ts toks p v =
      ⟨[], sr,
       [⟨mid, ts,
         elemwiseMean ((buf ++ [(⟨mid, ts, temps, p, v⟩ : Entry)]).map (·.temperatures)),
         qMean ((buf ++ [(⟨mid, ts, temps, p, v⟩ : Entry)]).map (·.power_consumption)),
         qMean ((buf ++ [(⟨mid, ts, temps, p, v⟩ : Entry)]).map (·.vibration))⟩],
       none⟩ := by
  simp only [processTelemetry, hp]
  rw [if_pos hlen,
    if_pos (show BUFFER_SIZE ≤ (buf ++ [(⟨mid, ts, temps, p, v⟩ : Entry)]).length by
      simp only [List.length_append, List.length_cons, List.length_nil, BUFFER_SIZE]
      omega),
    getLastD_concat]

/-! ### Concrete-evaluation helpers (replicate-shaped inputs) -/

theorem getD_replicate {α : Type} (n : Nat) (a d : α) (i : Nat) (hi : i < n) :
    (List.replicate n a).getD i d = a := by
  rw [List.getD_eq_getElem?_getD, List.getElem?_replicate_of_lt hi]
  rfl

theorem qMean_replicate_concat (n : Nat) (a b : ℚ) :
    qMean (List.replicate n a ++ [b]) = (n * a + b) / (n + 1) := by
  simp [qMean, List.sum_append, List.sum_replicate, nsmul_eq_mul]

theorem elemwiseMean_replicate_concat (n m : Nat) (a b : ℚ) :
    elemwiseMean (List.replicate n (List.replicate m (PyFloat.finite a)) ++
        [List.replicate m (PyFloat.finite b)]) =
      List.replicate m (.finite ((n * a + b) / (n + 1))) := by
  have hhead : ((List.replicate n (List.replicate m (PyFloat.finite a)) ++
      [List.replicate m (PyFloat.finite b)]).headD []).length = m := by
    cases n <;> simp [List.replicate_succ]
  have hlen : (List.replicate n (List.replicate m (PyFloat.finite a)) ++
      [List.replicate m (PyFloat.finite b)]).length = n + 1 := by simp
  rw [elemwiseMean, hhead, hlen]
  have hcol : ∀ i ∈ List.range m,
      (PyFloat.sum (colAt (List.replicate n (List.replicate m (PyFloat.finite a)) ++
        [List.replicate m (PyFloat.finite b)]) i)).divN (n + 1) =
      PyFloat.finite ((n * a + b) / (n + 1)) := by
    intro i hi
    have him : i < m := List.mem_range.mp hi
    rw [colAt, List.map_append, List.map_replicate]
    simp only [List.map_cons, List.map_nil]
    rw [getD_replicate m (PyFloat.finite a) (.finite 0) i him,
      getD_replicate m (PyFloat.finite b) (.finite 0) i him]
    have hmap : List.replicate n (PyFloat.finite a) ++ [PyFloat.finite b] =
        (List.replicate n a ++ [b]).map PyFloat.finite := by
      simp [List.map_append, List.map_replicate]
    rw [hmap, pf_sum_map_finite]
    show PyFloat.finite ((List.replicate n a ++ [b]).sum / ((n + 1 : ℕ) : ℚ)) = _
    rw [List.sum_append, List.sum_replicate, nsmul_eq_mul]
    simp [List.sum_cons]
  rw [List.map_congr_left hcol, List.map_const', List.length_range]

/-! ### Characterizations of `npMin` / `npMax` -/

theorem foldl_min_spec (l : List ℚ) :
    ∀ a : ℚ, (l.foldl min a ≤ a) ∧ (l.foldl min a = a ∨ l.foldl min a ∈ l) ∧
      ∀ x ∈ l, l.foldl min a ≤ x := by
  induction l with
  | nil => intro a; exact ⟨le_refl a, Or.inl rfl, by simp⟩
  | cons y l ih =>
    intro a
    obtain ⟨hle, hmem, hall⟩ := ih (min a y)
    refine ⟨le_trans hle (min_le_left a y), ?_, ?_⟩
    · rcases hmem with heq | hin
      · rw [List.foldl_cons]
        rcases le_total a y with hay | hya
        · exact Or.inl (by rw [heq, min_eq_left hay])
        · exact Or.inr (by rw [heq, min_eq_right hya]; simp)
      · exact Or.inr (by simp [List.foldl_cons, hin])
    · intro x hx
      rcases List.mem_cons.mp hx with rfl | hx
      · exact le_trans hle (min_le_right a x)
      · exact hall x hx

theorem npMin_mem (xs : List ℚ) (h : xs ≠ []) : npMin xs ∈ xs := by
  cases xs with
  | nil => exact absurd rfl h
  | cons x l =>
    rcases (foldl_min_spec l x).2.1 with heq | hin
    · rw [npMin, heq]; simp
    · rw [npMin]; simp [hin]

theorem npMin_le (xs : List ℚ) (x : ℚ) (hx : x ∈ xs) : npMin xs ≤ x := by
  cases xs with
  | nil => simp at hx
  | cons y l =>
    rcases List.mem_cons.mp hx with rfl | hx
    · exact (foldl_min_spec l x).1
    · exact (foldl_min_spec l y).2.2 x hx

theorem foldl_max_spec (l : List ℚ) :
    ∀ a : ℚ, (a ≤ l.foldl max a) ∧ (l.foldl max a = a ∨ l.foldl max a ∈ l) ∧
      ∀ x ∈ l, x ≤ l.foldl max a := by
  induction l with
  | nil => intro a; exact ⟨le_refl a, Or.inl rfl, by simp⟩
  | cons y l ih =>
    intro a
    obtain ⟨hle, hmem, hall⟩ := ih (max a y)
    refine ⟨le_trans (le_max_left a y) hle, ?_, ?_⟩
    · rcases hmem with heq | hin
      · rw [List.foldl_cons]
        rcases le_total a y with hay | hya
        · exact Or.inr (by rw [heq, max_eq_right hay]; simp)
        · exact Or.inl (by rw [heq, max_eq_left hya])
      · exact Or.inr (by simp [List.foldl_cons, hin])
    · intro x hx
      rcases List.mem_cons.mp hx with rfl | hx
      · exact le_trans (le_max_right a x) hle
      · exact hall x hx

theorem npMax_mem (xs : List ℚ) (h : xs ≠ []) : npMax xs ∈ xs := by
  cases xs with
  | nil => exact absurd rfl h
  | cons x l =>
    rcases (foldl_max_spec l x).2.1 with heq | hin
    · rw [npMax, heq]; simp
    · rw [npMax]; simp [hin]

theorem npMax_ge (xs : List ℚ) (x : ℚ) (hx : x ∈ xs) : x ≤ npMax xs := by
  cases xs with
  | nil => simp at hx
  | cons y l =>
    rcases List.mem_cons.mp hx with rfl | hx
    · exact (foldl_max_spec l x).1
    · exact (foldl_max_spec l y).2.2 x hx

theorem flatten_length_10000 (g : List (List ℚ)) (h100 : g.length = 100)
    (hrows : ∀ row ∈ g, row.length = 100) : g.flatten.length = 10000 := by
  rw [List.length_flatten, List.map_congr_left (fun row hr => hrows row hr),
    List.map_const', h100, List.sum_replicate]
  rfl

/-! ### Concrete data used by witnesses and counterexamples -/

/-- A buffered snapshot for machine "M1": a uniform 100×100 grid of 2.0 °C,
power 1 kW, vibration 1 mm/s. -/
def demoEntry : Entry := ⟨"M1", "t", List.replicate 10000 (.finite 2), 1, 1⟩

/-- A buffer holding nine snapshots for machine "M1". -/
def demoBuf9 : List Entry := List.replicate 9 demoEntry

/-- A valid raw payload: 10000 copies of the literal 12.0. -/
def demoToks : List Tok := List.replicate 10000 (Tok.num 12)

/-- The default entry used when reading the head of a payload list. -/
def defaultPayload : Payload := ⟨"", "", [], 0, 0⟩

/-! ### Claim theorems -/

/-- C2: an append of a valid snapshot flushes exactly when the window reaches
`WINDOW_SIZE` = 10 entries: a shorter window just buffers the entry and returns
nothing; on the 10th entry exactly one aggregated payload is produced, whose
machine_id and timestep are the most recently appended snapshot's, whose
power_consumption and vibration are the arithmetic means over the window, and
the window is cleared to empty; the aggregated grid at each cell index is the
arithmetic mean of the ten buffered grids at that index. -/
theorem append_flushes_exactly_at_window_size (sr : Option Nat) (buf : List Entry)
    (mid ts : String) (toks : List Tok) (p v : ℚ) (temps : List PyFloat)
    (hp : parseTemps toks = some temps) (hlen : temps.length = 10000)
    (hbuf : buf.length < 10) :
    (buf.length + 1 < 10 →
      processTelemetry sr buf mid ts toks p v =
        ⟨buf ++ [(⟨mid, ts, temps, p, v⟩ : Entry)], none, [], none⟩) ∧
    (buf.length + 1 = 10 →
      processTelemetry sr buf mid ts toks p v =
        ⟨[], sr,
         [⟨mid, ts,
           elemwiseMean ((buf ++ [(⟨mid, ts, temps, p, v⟩ : Entry)]).map (·.temperatures)),
           qMean ((buf ++ [(⟨mid, ts, temps, p, v⟩ : Entry)]).map (·.power_consumption)),
           qMean ((buf ++ [(⟨mid, ts, temps, p, v⟩ : Entry)]).map (·.vibration))⟩],
         none⟩) ∧
    (buf.length + 1 = 10 →
      (∀ e ∈ buf, e.temperatures.length = 10000) →
      (∀ e ∈ buf, AllFinite e.temperatures) → AllFinite temps →
      ∀ i, i < 10000 →
        ((processTelemetry sr buf mid ts toks p v).sends.headD
            defaultPayload).temperatures.getD i (.finite 0) =
          .finite (((buf ++ [(⟨mid, ts, temps, p, v⟩ : Entry)]).map
            (fun e => (e.temperatures.getD i (.finite 0)).toQ)).sum / 10)) := by
  refine ⟨fun hlt => processTelemetry_buffering sr buf mid ts toks p v temps hp hlen hlt,
    fun hfull => processTelemetry_flush sr buf mid ts toks p v temps hp hlen (by omega),
    fun hfull hinv hfin hfint i hi => ?_⟩
  rw [processTelemetry_flush sr buf mid ts toks p v temps hp hlen (by omega)]
  simp only [List.headD_cons]
  have hxss_head :
      (((buf ++ [(⟨mid, ts, temps, p, v⟩ : Entry)]).map (·.temperatures)).headD []).length
        = 10000 := by
    cases buf with
    | nil => simp at hfull
    | cons b l => simpa using hinv b (by simp)
  have hfin' : ∀ xs ∈ (buf ++ [(⟨mid, ts, temps, p, v⟩ : Entry)]).map (·.temperatures),
      AllFinite xs := by
    intro xs hxs
    obtain ⟨e', he', rfl⟩ := List.mem_map.mp hxs
    rcases List.mem_append.mp he' with h1 | h2
    · exact hfin e' h1
    · rw [List.mem_singleton.mp h2]
      exact hfint
  rw [elemwiseMean_getD_finite _ i _ (by rw [hxss_head]; exact hi) hfin', List.map_map]
  have hl10 : ((buf ++ [(⟨mid, ts, temps, p, v⟩ : Entry)]).map (·.temperatures)).length
      = 10 := by
    simp only [List.length_map, List.length_append, List.length_cons, List.length_nil]
    omega
  rw [hl10]
  simp only [Function.comp_def]
  norm_num

/-- C2 witness: after nine buffered snapshots the tenth valid append (machine
"M2", value 12.0 everywhere) produces exactly one aggregated payload and
clears the buffer. -/
theorem append_flushes_exactly_at_window_size_witness :
    processTelemetry (some 7) demoBuf9 "M2" "u" demoToks 3 5 =
      ⟨[], some 7,
       [⟨"M2", "u",
         elemwiseMean ((demoBuf9 ++
           [(⟨"M2", "u", List.replicate 10000 (.finite 12), 3, 5⟩ : Entry)]).map
             (·.temperatures)),
         qMean ((demoBuf9 ++
           [(⟨"M2", "u", List.replicate 10000 (.finite 12), 3, 5⟩ : Entry)]).map
             (·.power_consumption)),
         qMean ((demoBuf9 ++
           [(⟨"M2", "u", List.replicate 10000 (.finite 12), 3, 5⟩ : Entry)]).map
             (·.vibration))⟩],
       none⟩ :=
  (append_flushes_exactly_at_window_size (some 7) demoBuf9 "M2" "u" demoToks 3 5
      (List.replicate 10000 (.finite 12))
      (parseTemps_replicate (Tok.num 12) (.finite 12) rfl 10000)
      (List.length_replicate 10000 _) (by simp [demoBuf9])).2.1 (by simp [demoBuf9])

/-- C1 counterexample: with nine "M1" snapshots (uniform grid 2.0) buffered,
the very first append for machine "M2" (uniform grid 12.0) triggers a flush
whose grid is uniformly 3.0 = (9·2 + 12)/10 — "M2"'s snapshot is averaged
together with "M1"'s nine snapshots, and the aggregate is stamped "M2".  The
buffer is one shared global window, not per-machine. -/
theorem snapshots_of_two_machines_averaged_cx :
    processTelemetry (some 1) demoBuf9 "M2" "u" demoToks 3 5 =
      ⟨[], some 1,
       [⟨"M2", "u", List.replicate 10000 (.finite 3), 6/5, 7/5⟩],
       none⟩ := by
  rw [processTelemetry_flush (some 1) demoBuf9 "M2" "u" demoToks 3 5
      (List.replicate 10000 (.finite 12))
      (parseTemps_replicate (Tok.num 12) (.finite 12) rfl 10000)
      (List.length_replicate 10000 _) (by simp [demoBuf9])]
  have hT : (demoBuf9 ++ [(⟨"M2", "u", List.replicate 10000 (.finite 12), 3, 5⟩ : Entry)]).map
      (·.temperatures) =
      List.replicate 9 (List.replicate 10000 (PyFloat.finite 2)) ++
        [List.replicate 10000 (PyFloat.finite 12)] := by
    rw [demoBuf9, List.map_append, List.map_replicate]
    rfl
  have hP : (demoBuf9 ++ [(⟨"M2", "u", List.replicate 10000 (.finite 12), 3, 5⟩ : Entry)]).map
      (·.power_consumption) = List.replicate 9 (1 : ℚ) ++ [3] := by
    rw [demoBuf9, List.map_append, List.map_replicate]
    rfl
  have hV : (demoBuf9 ++ [(⟨"M2", "u", List.replicate 10000 (.finite 12), 3, 5⟩ : Entry)]).map
      (·.vibration) = List.replicate 9 (1 : ℚ) ++ [5] := by
    rw [demoBuf9, List.map_append, List.map_replicate]
    rfl
  rw [hT, hP, hV, elemwiseMean_replicate_concat, qMean_replicate_concat,
    qMean_replicate_concat]
  norm_num

/-- C1 (amended): the buffering deployment keeps a single global window shared
by every machine id.  Even when the buffer holds a snapshot of a different
machine than the one being appended, the append joins that same window, and
the flush triggered on the 10th buffered point averages all buffered snapshots
regardless of machine id, stamping the aggregate with the most recently
appended machine_id and timestep and draining the other machines' data. -/
theorem global_window_shared_across_machines (sr : Option Nat) (buf : List Entry)
    (midB ts : String) (toks : List Tok) (p v : ℚ) (temps : List PyFloat)
    (hp : parseTemps toks = some temps) (hlen : temps.length = 10000)
    (_hother : ∃ e ∈ buf, e.machine_id ≠ midB)
    (hge : 10 ≤ buf.length + 1) :
    processTelemetry sr buf midB ts toks p v =
      ⟨[], sr,
       [⟨midB, ts,
         elemwiseMean ((buf ++ [(⟨midB, ts, temps, p, v⟩ : Entry)]).map (·.temperatures)),
         qMean ((buf ++ [(⟨midB, ts, temps, p, v⟩ : Entry)]).map (·.power_consumption)),
         qMean ((buf ++ [(⟨midB, ts, temps, p, v⟩ : Entry)]).map (·.vibration))⟩],
       none⟩ :=
  processTelemetry_flush sr buf midB ts toks p v temps hp hlen hge

/-- C1 amended witness: the shared-window flush at the concrete mixed-machine
input (nine "M1" snapshots, then one "M2" snapshot). -/
theorem global_window_shared_across_machines_witness :
    processTelemetry (some 4) demoBuf9 "M2" "u" demoToks 3 5 =
      ⟨[], some 4,
       [⟨"M2", "u",
         elemwiseMean ((demoBuf9 ++
           [(⟨"M2", "u", List.replicate 10000 (.finite 12), 3, 5⟩ : Entry)]).map
             (·.temperatures)),
         qMean ((demoBuf9 ++
           [(⟨"M2", "u", List.replicate 10000 (.finite 12), 3, 5⟩ : Entry)]).map
             (·.power_consumption)),
         qMean ((demoBuf9 ++
           [(⟨"M2", "u", List.replicate 10000 (.finite 12), 3, 5⟩ : Entry)]).map
             (·.vibration))⟩],
       none⟩ :=
  global_window_shared_across_machines (some 4) demoBuf9 "M2" "u" demoToks 3 5
    (List.replicate 10000 (.finite 12))
    (parseTemps_replicate (Tok.num 12) (.finite 12) rfl 10000)
    (List.length_replicate 10000 _)
    ⟨demoEntry, by simp [demoBuf9], show ("M1" : String) ≠ "M2" by decide⟩
    (by simp [demoBuf9])

/-- C3: an input that parses but whose element count is not 10000 is rejected
by both variants with a size-mismatch error carrying the actual count; no
snapshot is produced, nothing is buffered or sent, and the call returns
nothing. -/
theorem wrong_size_rejected (sr : Option Nat) (buf : List Entry) (mid ts : String)
    (toks : List Tok) (p v : ℚ) (temps : List PyFloat)
    (hp : parseTemps toks = some temps) (hlen : temps.length ≠ 10000) :
    processTelemetry sr buf mid ts toks p v =
      ⟨buf, none, [], some (.sizeMismatch temps.length)⟩ ∧
    storeValidate toks = .error (.sizeMismatch temps.length) := by
  refine ⟨processTelemetry_size_fail sr buf mid ts toks p v temps hp hlen, ?_⟩
  simp only [storeValidate, hp]
  rw [if_neg hlen]

/-- C3 witness: a 9999-element payload is rejected with `sizeMismatch 9999`
by both variants. -/
theorem wrong_size_rejected_witness :
    processTelemetry none [] "M1" "t" (List.replicate 9999 (Tok.num 1)) 0 0 =
      ⟨[], none, [], some (.sizeMismatch 9999)⟩ ∧
    storeValidate (List.replicate 9999 (Tok.num 1)) = .error (.sizeMismatch 9999) := by
  have h := wrong_size_rejected none [] "M1" "t" (List.replicate 9999 (Tok.num 1)) 0 0
    (List.replicate 9999 (.finite 1))
    (parseTemps_replicate (Tok.num 1) (.finite 1) rfl 9999)
    (by rw [List.length_replicate]; omega)
  rwa [List.length_replicate] at h

/-- C4 counterexample: a payload of 10000 "nan" tokens passes validation
(`float("nan")` succeeds in Python), so no parse error is reported and a
snapshot whose every cell is NaN is appended to the buffer — refuting the
claim that the tokens NaN/Inf fail with a parse error and that no snapshot
containing a NaN cell is ever accepted into a buffer. -/
theorem nan_tokens_accepted_cx :
    processTelemetry none [] "M1" "0" (List.replicate 10000 Tok.nanTok) 0 0 =
      ⟨[(⟨"M1", "0", List.replicate 10000 PyFloat.nan, 0, 0⟩ : Entry)], none, [], none⟩ ∧
    PyFloat.nan ∈ List.replicate 10000 PyFloat.nan := by
  constructor
  · have h := processTelemetry_buffering none [] "M1" "0"
      (List.replicate 10000 Tok.nanTok) 0 0 (List.replicate 10000 .nan)
      (parseTemps_replicate Tok.nanTok .nan rfl 10000)
      (List.length_replicate 10000 _) (by simp)
    rwa [List.nil_append] at h
  · exact List.mem_replicate.mpr ⟨by omega, rfl⟩

/-- C4 (amended): an input containing a token that `float` cannot parse at all
fails with a parse error in both variants, and contributes nothing to any
buffer; however the tokens "nan"/"inf" do parse as floats (see the
counterexample), so only genuinely unparseable tokens are rejected. -/
theorem unparseable_token_rejected (sr : Option Nat) (buf : List Entry)
    (mid ts : String) (toks : List Tok) (p v : ℚ)
    (hbad : Tok.bad ∈ toks) :
    parseTemps toks = none ∧
    processTelemetry sr buf mid ts toks p v = ⟨buf, none, [], some .parseError⟩ ∧
    storeValidate toks = .error .parseError := by
  have hp : parseTemps toks = none := (parseTemps_eq_none_iff toks).mpr hbad
  exact ⟨hp, processTelemetry_parse_fail sr buf mid ts toks p v hp,
    by simp only [storeValidate, hp]⟩

/-- C4 amended witness: the single unparseable token is rejected with a parse
error by both variants. -/
theorem unparseable_token_rejected_witness :
    parseTemps [Tok.bad] = none ∧
    processTelemetry none [] "M1" "t" [Tok.bad] 0 0 =
      ⟨[], none, [], some .parseError⟩ ∧
    storeValidate [Tok.bad] = .error .parseError :=
  unparseable_token_rejected none [] "M1" "t" [Tok.bad] 0 0 (by simp)

/-- C6: when the forward attempt fails (`sendResult = none`, covering non-2xx
responses, network failures, and the bounded 10-second timeout — in the source
every such failure is caught and `send_to_cloud` returns `None` instead of
blocking), the flushing call reports the failure by returning `None`, makes
exactly one forward attempt (no implicit retry), and leaves the buffer empty:
the window's data is lost, not requeued or rolled back. -/
theorem forward_failure_drops_window (buf : List Entry) (mid ts : String)
    (toks : List Tok) (p v : ℚ) (temps : List PyFloat)
    (hp : parseTemps toks = some temps) (hlen : temps.length = 10000)
    (hfull : 10 ≤ buf.length + 1) :
    (processTelemetry none buf mid ts toks p v).buffer = [] ∧
    (processTelemetry none buf mid ts toks p v).ret = none ∧
    (processTelemetry none buf mid ts toks p v).sends.length = 1 := by
  rw [processTelemetry_flush none buf mid ts toks p v temps hp hlen hfull]
  exact ⟨rfl, rfl, rfl⟩

/-- C6 witness: the flush of the nine buffered "M1" snapshots plus a tenth
append with a failed forward leaves an empty buffer, returns `None`, and made
one forward attempt. -/
theorem forward_failure_drops_window_witness :
    (processTelemetry none demoBuf9 "M2" "u" demoToks 3 5).buffer = [] ∧
    (processTelemetry none demoBuf9 "M2" "u" demoToks 3 5).ret = none ∧
    (processTelemetry none demoBuf9 "M2" "u" demoToks 3 5).sends.length = 1 :=
  forward_failure_drops_window demoBuf9 "M2" "u" demoToks 3 5
    (List.replicate 10000 (.finite 12))
    (parseTemps_replicate (Tok.num 12) (.finite 12) rfl 10000)
    (List.length_replicate 10000 _) (by simp [demoBuf9])

/-- C10: if every buffered snapshot holds exactly 10000 temperature values
(only inputs passing the size check are ever appended), then after any call —
whatever its input — every snapshot still in the buffer holds exactly 10000
values, and every flushed payload handed to the forwarder holds exactly 10000
values, so the flush output itself satisfies the fixed-size (10000-element)
check applied by the downstream store. -/
theorem flush_output_keeps_payload_size (sr : Option Nat) (buf : List Entry)
    (mid ts : String) (toks : List Tok) (p v : ℚ)
    (hinv : ∀ e ∈ buf, e.temperatures.length = 10000) :
    (∀ e ∈ (processTelemetry sr buf mid ts toks p v).buffer,
      e.temperatures.length = 10000) ∧
    (∀ pl ∈ (processTelemetry sr buf mid ts toks p v).sends,
      pl.temperatures.length = 10000) := by
  cases hp : parseTemps toks with
  | none =>
    rw [processTelemetry_parse_fail sr buf mid ts toks p v hp]
    exact ⟨hinv, by simp⟩
  | some temps =>
    by_cases hlen : temps.length = 10000
    · by_cases hfull : 10 ≤ buf.length + 1
      · rw [processTelemetry_flush sr buf mid ts toks p v temps hp hlen hfull]
        refine ⟨by simp, fun pl hpl => ?_⟩
        rw [List.mem_singleton.mp hpl]
        show (elemwiseMean _).length = 10000
        rw [elemwiseMean_length]
        cases buf with
        | nil => simpa using hlen
        | cons b l => simpa using hinv b (by simp)
      · rw [processTelemetry_buffering sr buf mid ts toks p v temps hp hlen (by omega)]
        refine ⟨fun e he => ?_, by simp⟩
        rcases List.mem_append.mp he with h1 | h2
        · exact hinv e h1
        · rw [List.mem_singleton.mp h2]
          exact hlen
    · rw [processTelemetry_size_fail sr buf mid ts toks p v temps hp hlen]
      exact ⟨hinv, by simp⟩

/-- C10 witness: the invariant holds through the concrete flush of the nine
buffered "M1" snapshots plus the tenth "M2" append. -/
theorem flush_output_keeps_payload_size_witness :
    (∀ e ∈ (processTelemetry (some 2) demoBuf9 "M2" "u" demoToks 3 5).buffer,
      e.temperatures.length = 10000) ∧
    (∀ pl ∈ (processTelemetry (some 2) demoBuf9 "M2" "u" demoToks 3 5).sends,
      pl.temperatures.length = 10000) :=
  flush_output_keeps_payload_size (some 2) demoBuf9 "M2" "u" demoToks 3 5
    (fun e he => by
      simp only [demoBuf9] at he
      rw [List.eq_of_mem_replicate he]
      show (List.replicate 10000 (PyFloat.finite 2)).length = 10000
      rw [List.length_replicate])

/-- C8 counterexample: a first append (buffered, not flushed, no error) and a
validation-error submission both make the OPC UA adapter write back the same
value 0 to `LastRecordID` — the "accepted, no record yet" outcome is NOT
distinct from the error outcome, refuting the claimed three-way distinction. -/
theorem buffered_result_equals_error_result_cx :
    (processTelemetry none [] "M1" "t" demoToks 0 0).err = none ∧
    (processTelemetry none [] "M1" "t" demoToks 0 0).sends = [] ∧
    (processTelemetry none [] "M1" "t" demoToks 0 0).buffer.length = 1 ∧
    (processTelemetry none [] "M1" "t" [Tok.bad] 0 0).err = some .parseError ∧
    writeBack (processTelemetry none [] "M1" "t" demoToks 0 0).ret =
      writeBack (processTelemetry none [] "M1" "t" [Tok.bad] 0 0).ret := by
  rw [processTelemetry_buffering none [] "M1" "t" demoToks 0 0
      (List.replicate 10000 (.finite 12))
      (parseTemps_replicate (Tok.num 12) (.finite 12) rfl 10000)
      (List.length_replicate 10000 _) (by simp),
    processTelemetry_parse_fail none [] "M1" "t" [Tok.bad] 0 0
      ((parseTemps_eq_none_iff [Tok.bad]).mpr (by simp))]
  exact ⟨rfl, rfl, rfl, rfl, rfl⟩

/-- C8 (amended): the adapter writes a single integer back: on a
buffered-not-flushed append it writes 0, on a validation failure it also
writes 0 (the two outcomes are indistinguishable to the adapter), on a failed
forward it writes 0, and only a successful flush whose assigned record id is
nonzero is distinguishable, the id itself being written back. -/
theorem write_back_collapses_outcomes (sr : Option Nat) (buf : List Entry)
    (mid ts : String) (toks : List Tok) (p v : ℚ) (temps : List PyFloat)
    (hp : parseTemps toks = some temps) (hlen : temps.length = 10000)
    (hlt : buf.length + 1 < 10) :
    writeBack (processTelemetry sr buf mid ts toks p v).ret = 0 ∧
    (∀ toks' : List Tok, parseTemps toks' = none →
      writeBack (processTelemetry sr buf mid ts toks' p v).ret = 0) ∧
    (∀ buf' : List Entry, 10 ≤ buf'.length + 1 →
      writeBack (processTelemetry none buf' mid ts toks p v).ret = 0) ∧
    (∀ n : Nat, writeBack (some (n + 1)) = n + 1) ∧
    writeBack (some 0) = 0 := by
  refine ⟨?_, fun toks' hp' => ?_, fun buf' hge => ?_, fun n => ?_, rfl⟩
  · rw [processTelemetry_buffering sr buf mid ts toks p v temps hp hlen hlt]
    rfl
  · rw [processTelemetry_parse_fail sr buf mid ts toks' p v hp']
    rfl
  · rw [processTelemetry_flush none buf' mid ts toks p v temps hp hlen hge]
    rfl
  · simp [writeBack]

/-- C8 amended witness: the collapsed write-backs at the concrete first-append
input. -/
theorem write_back_collapses_outcomes_witness :
    writeBack (processTelemetry (some 3) [] "M1" "t" demoToks 0 0).ret = 0 ∧
    (∀ toks' : List Tok, parseTemps toks' = none →
      writeBack (processTelemetry (some 3) [] "M1" "t" toks' 0 0).ret = 0) ∧
    (∀ buf' : List Entry, 10 ≤ buf'.length + 1 →
      writeBack (processTelemetry none buf' "M1" "t" demoToks 0 0).ret = 0) ∧
    (∀ n : Nat, writeBack (some (n + 1)) = n + 1) ∧
    writeBack (some 0) = 0 :=
  write_back_collapses_outcomes (some 3) [] "M1" "t" demoToks 0 0
    (List.replicate 10000 (.finite 12))
    (parseTemps_replicate (Tok.num 12) (.finite 12) rfl 10000)
    (List.length_replicate 10000 _) (by simp)

/-- C5: on a 100×100 grid the statistics computation returns the exact minimum
and maximum over all 10000 cells, the arithmetic mean over all cells
(sum / 10000), and a standard deviation equal to
sqrt(mean((x − mean)²)) with the population divisor N = 10000 (numpy's default
ddof = 0, not the Bessel-corrected N − 1), all computed over the flattened
grid.  `variance` is the value under numpy's square root, so the last conjunct
states the claim's `std = sqrt(mean((x − mean)²))` formula itself. -/
theorem summarize_exact_stats (g : List (List ℚ)) (h100 : g.length = 100)
    (hrows : ∀ row ∈ g, row.length = 100) :
    ((summarize g).min ∈ g.flatten ∧ ∀ x ∈ g.flatten, (summarize g).min ≤ x) ∧
    ((summarize g).max ∈ g.flatten ∧ ∀ x ∈ g.flatten, x ≤ (summarize g).max) ∧
    (summarize g).mean = g.flatten.sum / 10000 ∧
    (summarize g).variance =
      (g.flatten.map (fun x => (x - g.flatten.sum / 10000) ^ 2)).sum / 10000 ∧
    Real.sqrt ((summarize g).variance : ℝ) =
      Real.sqrt
        (((g.flatten.map (fun x => (x - g.flatten.sum / 10000) ^ 2)).sum / 10000 : ℚ) : ℝ) := by
  have hflat : g.flatten.length = 10000 := flatten_length_10000 g h100 hrows
  have hne : g.flatten ≠ [] := by
    intro h
    rw [h] at hflat
    simp at hflat
  have hmean : npMean g.flatten = g.flatten.sum / 10000 := by
    rw [npMean, hflat]
    norm_num
  have hvar : npVar g.flatten =
      (g.flatten.map (fun x => (x - g.flatten.sum / 10000) ^ 2)).sum / 10000 := by
    simp only [npVar]
    simp only [hmean]
    simp only [npMean, List.length_map]
    rw [hflat]
    norm_num
  exact ⟨⟨npMin_mem _ hne, fun x hx => npMin_le _ x hx⟩,
    ⟨npMax_mem _ hne, fun x hx => npMax_ge _ x hx⟩, hmean, hvar,
    by rw [show (summarize g).variance = npVar g.flatten from rfl, hvar]⟩

/-- C5 witness: the statistics of the uniform 100×100 grid of 5.0 are exact. -/
theorem summarize_exact_stats_witness :
    ((summarize (List.replicate 100 (List.replicate 100 (5 : ℚ)))).min ∈
        (List.replicate 100 (List.replicate 100 (5 : ℚ))).flatten ∧
      ∀ x ∈ (List.replicate 100 (List.replicate 100 (5 : ℚ))).flatten,
        (summarize (List.replicate 100 (List.replicate 100 (5 : ℚ)))).min ≤ x) ∧
    ((summarize (List.replicate 100 (List.replicate 100 (5 : ℚ)))).max ∈
        (List.replicate 100 (List.replicate 100 (5 : ℚ))).flatten ∧
      ∀ x ∈ (List.replicate 100 (List.replicate 100 (5 : ℚ))).flatten,
        x ≤ (summarize (List.replicate 100 (List.replicate 100 (5 : ℚ)))).max) ∧
    (summarize (List.replicate 100 (List.replicate 100 (5 : ℚ)))).mean =
      (List.replicate 100 (List.replicate 100 (5 : ℚ))).flatten.sum / 10000 ∧
    (summarize (List.replicate 100 (List.replicate 100 (5 : ℚ)))).variance =
      ((List.replicate 100 (List.replicate 100 (5 : ℚ))).flatten.map
        (fun x => (x - (List.replicate 100 (List.replicate 100 (5 : ℚ))).flatten.sum / 10000) ^ 2)).sum
        / 10000 ∧
    Real.sqrt ((summarize (List.replicate 100 (List.replicate 100 (5 : ℚ)))).variance : ℝ) =
      Real.sqrt
        ((((List.replicate 100 (List.replicate 100 (5 : ℚ))).flatten.map
          (fun x => (x - (List.replicate 100 (List.replicate 100 (5 : ℚ))).flatten.sum / 10000) ^ 2)).sum
          / 10000 : ℚ) : ℝ) :=
  summarize_exact_stats (List.replicate 100 (List.replicate 100 (5 : ℚ)))
    (List.length_replicate 100 _)
    (fun row hr => by rw [List.eq_of_mem_replicate hr, List.length_replicate])

/-- C7: a payload of exactly 10000 parseable numeric tokens passes validation
and is reshaped into a 100×100 grid in row-major order: the grid has 100 rows
of 100 cells, and input index `i` lands at row `i / 100`, column `i % 100` —
so the first 100 input values form row 0, the next 100 row 1, and so on. -/
theorem valid_input_reshaped_row_major (toks : List Tok)
    (hnum : ∀ t ∈ toks, ∃ q : ℚ, t = .num q) (hlen : toks.length = 10000) :
    ∃ temps : List PyFloat, parseTemps toks = some temps ∧
      storeValidate toks = .ok (reshapeGrid 100 100 temps) ∧
      (reshapeGrid 100 100 temps).length = 100 ∧
      (∀ row ∈ reshapeGrid 100 100 temps, row.length = 100) ∧
      (∀ i, i < 10000 →
        ((reshapeGrid 100 100 temps).getD (i / 100) []).getD (i % 100) (.finite 0) =
          temps.getD i (.finite 0)) := by
  obtain ⟨temps, hp, _hfin, hl⟩ := parseTemps_all_num toks hnum
  have hlen' : temps.length = 10000 := by rw [hl, hlen]
  refine ⟨temps, hp, ?_, by simp [reshapeGrid], ?_, ?_⟩
  · simp only [storeValidate, hp]
    rw [if_pos hlen']
  · intro row hrow
    obtain ⟨r, hr, rfl⟩ := List.mem_map.mp hrow
    have hr' : r < 100 := List.mem_range.mp hr
    rw [List.length_take, List.length_drop, hlen']
    omega
  · intro i hi
    have hdiv : i / 100 < 100 := by omega
    rw [reshapeGrid, getD_range_map 100 _ (i / 100) [] hdiv,
      List.getD_eq_getElem?_getD, List.getD_eq_getElem?_getD,
      List.getElem?_take_of_lt (Nat.mod_lt i (by omega)),
      List.getElem?_drop]
    have : i / 100 * 100 + i % 100 = i := by omega
    rw [this]

/-- C7 witness: 10000 copies of the literal 7.0 validate and reshape
row-major. -/
theorem valid_input_reshaped_row_major_witness :
    ∃ temps : List PyFloat,
      parseTemps (List.replicate 10000 (Tok.num 7)) = some temps ∧
      storeValidate (List.replicate 10000 (Tok.num 7)) =
        .ok (reshapeGrid 100 100 temps) ∧
      (reshapeGrid 100 100 temps).length = 100 ∧
      (∀ row ∈ reshapeGrid 100 100 temps, row.length = 100) ∧
      (∀ i, i < 10000 →
        ((reshapeGrid 100 100 temps).getD (i / 100) []).getD (i % 100) (.finite 0) =
          temps.getD i (.finite 0)) :=
  valid_input_reshaped_row_major (List.replicate 10000 (Tok.num 7))
    (fun _t ht => ⟨7, List.eq_of_mem_replicate ht⟩)
    (List.length_replicate 10000 _)

end IIoT
